import Mathlib

/-!
# Verification of the cw-agents MCP client infrastructure

Shallow embedding of the tool-invocation client and its resilient connection
layer from `src/infrastructure/fastmcp_client.py` and
`src/infrastructure/mcp_pool.py`:

* a `Json` value type together with a model of Python's `json.loads`
  (restricted to the JSON fragment the wire protocol uses: objects, arrays,
  strings with simple escapes, integers, booleans and null; `\uXXXX` escapes
  and non-integer numbers are outside the model and make the parser fail);
* the `CircuitBreaker` state machine (`call_succeeded`, `call_failed`,
  `can_attempt`), with `datetime.now()` made an explicit natural-number
  timestamp parameter;
* `MCPConnection.call_tool` with its tenacity retry decorator
  (`stop_after_attempt(3)`, `retry_if_exception_type((httpx.HTTPError,
  asyncio.TimeoutError))`, default `reraise=False`, so exhausting the
  attempts raises a `RetryError` wrapping the last exception);
* `MCPConnectionPool.call_tool` over an explicit pool state (metrics,
  breaker, available-connections queue);
* the `FastMCPClient` streaming session: `_next_id`, `_send_message`
  (with Python's truthiness test `if wait_response and msg_id:` modelled
  exactly, so message id 0 counts as absent), the SSE listener's
  per-event handling, and `call_tool`'s result extraction.

Exceptions become explicit error values, awaits become explicit outcome
parameters (did the POST succeed, did a correlated response arrive before
the deadline), and the mutable attributes become explicit state records.
-/

/-- JSON values, the data both clients exchange with the tool server.
Python dicts become association lists (keys unique, insertion order);
JSON numbers are modelled as integers only, which covers the protocol. -/
inductive Json where
  | null : Json
  | bool (b : Bool) : Json
  | num (n : Int) : Json
  | str (s : String) : Json
  | arr (elems : List Json) : Json
  | obj (members : List (String × Json)) : Json
deriving Repr

/-- Association-list lookup: Python's `d[k]` / `k in d` on a dict. -/
def lookupKey : List (String × Json) → String → Option Json
  | [], _ => none
  | (k, v) :: rest, key => if k = key then some v else lookupKey rest key

/-- `key in j and j[key]` for a JSON value known to be used as a dict;
on a non-object this is `none` (the code only reaches it on objects). -/
def Json.getKey : Json → String → Option Json
  | .obj ms, key => lookupKey ms key
  | _, _ => none

/-- Python's `isinstance(result, dict)`. -/
def Json.isObj : Json → Bool
  | .obj _ => true
  | _ => false

/-! ## A model of Python's `json.loads`

Recursive-descent parser over the character list, with fuel for the
nested-value recursion.  It accepts the JSON fragment the MCP protocol
uses; on anything it does not model (`\uXXXX` escapes, floats) it fails,
like `json.loads` fails on genuinely malformed input. -/

/-- JSON insignificant whitespace. -/
def isJsonWs (c : Char) : Bool :=
  c = ' ' || c = '\t' || c = '\n' || c = '\r'

/-- Skip insignificant whitespace. -/
def skipWs : List Char → List Char
  | [] => []
  | c :: cs => if isJsonWs c then skipWs cs else c :: cs

/-- ASCII digit test. -/
def isDigitChar (c : Char) : Bool :=
  '0' ≤ c && c ≤ '9'

/-- The two-character escape sequences JSON strings allow (no `\uXXXX`):
escape letter paired with the character it denotes. -/
def escapeTable : List (Char × Char) :=
  [('"', '"'), ('\\', '\\'), ('/', '/'), ('n', '\n'),
   ('t', '\t'), ('r', '\r'), ('b', Char.ofNat 8), ('f', Char.ofNat 12)]

/-- Decode one string-escape character via `escapeTable`. -/
def decodeEscape (e : Char) : Option Char :=
  (escapeTable.find? (fun p => p.1 == e)).map (fun p => p.2)

/-- Parse the body of a JSON string (the opening quote already consumed),
returning the decoded characters and the remaining input. -/
def parseStrChars : List Char → Option (List Char × List Char)
  | [] => none
  | c :: cs =>
    if c = '"' then some ([], cs)
    else if c = '\\' then
      match cs with
      | [] => none
      | e :: cs' =>
        match decodeEscape e with
        | some d =>
          match parseStrChars cs' with
          | some (s, r) => some (d :: s, r)
          | none => none
        | none => none
    else
      match parseStrChars cs with
      | some (s, r) => some (c :: s, r)
      | none => none

/-- Numeric value of a digit list. -/
def digitsToNat (ds : List Char) : Nat :=
  ds.foldl (fun a c => a * 10 + (c.toNat - 48)) 0

/-- Parse an integer literal (optional leading minus); fails when a
fraction or exponent follows, which is outside the model. -/
def parseIntLit (cs : List Char) : Option (Json × List Char) :=
  let neg := cs.head? = some '-'
  let cs1 := if neg then cs.tail else cs
  let ds := cs1.takeWhile isDigitChar
  let rest := cs1.dropWhile isDigitChar
  if ds.isEmpty then none
  else
    match rest.head? with
    | some c => if c = '.' || c = 'e' || c = 'E' then none
                else some (.num (if neg then -(digitsToNat ds : Int) else (digitsToNat ds : Int)), rest)
    | none => some (.num (if neg then -(digitsToNat ds : Int) else (digitsToNat ds : Int)), rest)

mutual

/-- Parse one JSON value. -/
def parseValue : Nat → List Char → Option (Json × List Char)
  | 0, _ => none
  | fuel + 1, cs =>
    match skipWs cs with
    | [] => none
    | c :: rest =>
      if c = 'n' then
        match rest with
        | 'u' :: 'l' :: 'l' :: r => some (.null, r)
        | _ => none
      else if c = 't' then
        match rest with
        | 'r' :: 'u' :: 'e' :: r => some (.bool true, r)
        | _ => none
      else if c = 'f' then
        match rest with
        | 'a' :: 'l' :: 's' :: 'e' :: r => some (.bool false, r)
        | _ => none
      else if c = '"' then
        match parseStrChars rest with
        | some (s, r) => some (.str (String.mk s), r)
        | none => none
      else if c = '[' then
        match parseArrayItems fuel rest with
        | some (vs, r) => some (.arr vs, r)
        | none => none
      else if c = '{' then
        match parseObjItems fuel rest with
        | some (ms, r) => some (.obj ms, r)
        | none => none
      else if c = '-' || isDigitChar c then
        parseIntLit (c :: rest)
      else none

/-- Parse array items after `[`. -/
def parseArrayItems : Nat → List Char → Option (List Json × List Char)
  | 0, _ => none
  | fuel + 1, cs =>
    match skipWs cs with
    | ']' :: r => some ([], r)
    | cs' =>
      match parseValue fuel cs' with
      | some (v, r) =>
        match parseArrayRest fuel r with
        | some (vs, r2) => some (v :: vs, r2)
        | none => none
      | none => none

/-- Parse `, value ... ]` after an array item. -/
def parseArrayRest : Nat → List Char → Option (List Json × List Char)
  | 0, _ => none
  | fuel + 1, cs =>
    match skipWs cs with
    | ']' :: r => some ([], r)
    | ',' :: r =>
      match parseValue fuel r with
      | some (v, r2) =>
        match parseArrayRest fuel r2 with
        | some (vs, r3) => some (v :: vs, r3)
        | none => none
      | none => none
    | _ => none

/-- Parse one `"key": value` member. -/
def parseMember : Nat → List Char → Option ((String × Json) × List Char)
  | 0, _ => none
  | fuel + 1, cs =>
    match skipWs cs with
    | '"' :: r =>
      match parseStrChars r with
      | some (k, r2) =>
        match skipWs r2 with
        | ':' :: r3 =>
          match parseValue fuel r3 with
          | some (v, r4) => some ((String.mk k, v), r4)
          | none => none
        | _ => none
      | none => none
    | _ => none

/-- Parse object members after `{`. -/
def parseObjItems : Nat → List Char → Option (List (String × Json) × List Char)
  | 0, _ => none
  | fuel + 1, cs =>
    match skipWs cs with
    | '}' :: r => some ([], r)
    | cs' =>
      match parseMember fuel cs' with
      | some (m, r) =>
        match parseObjRest fuel r with
        | some (ms, r2) => some (m :: ms, r2)
        | none => none
      | none => none

/-- Parse `, "key": value ... }` after an object member. -/
def parseObjRest : Nat → List Char → Option (List (String × Json) × List Char)
  | 0, _ => none
  | fuel + 1, cs =>
    match skipWs cs with
    | '}' :: r => some ([], r)
    | ',' :: r =>
      match parseMember fuel r with
      | some (m, r2) =>
        match parseObjRest fuel r2 with
        | some (ms, r3) => some (m :: ms, r3)
        | none => none
      | none => none
    | _ => none

end

/-- Model of `json.loads`: parse one value and require only whitespace
after it. -/
def parseJson (s : String) : Option Json :=
  match parseValue (2 * s.length + 4) s.data with
  | some (v, rest) => if (skipWs rest).isEmpty then some v else none
  | none => none

/-! ## Circuit breaker (`mcp_pool.py`, class `CircuitBreaker`)

`datetime.now()` becomes an explicit timestamp in seconds; the elapsed
time `(now - last_failure_time).total_seconds()` becomes truncated
natural subtraction (timestamps never decrease in the program's runs). -/

/-- `CircuitState` enum. -/
inductive CircuitState where
  | closed : CircuitState
  | open : CircuitState
  | half_open : CircuitState
deriving DecidableEq, Repr

/-- `CircuitBreaker` attributes: configuration set in `__init__`
(defaults 5 / 60 / 2) plus the mutable counters and state. -/
structure CircuitBreaker where
  failure_threshold : Nat := 5
  timeout : Nat := 60
  success_threshold : Nat := 2
  failure_count : Nat := 0
  success_count : Nat := 0
  last_failure_time : Option Nat := none
  state : CircuitState := .closed
deriving DecidableEq, Repr

/-- `CircuitBreaker.call_succeeded`: reset `failure_count`; while
half-open, count the success and close once `success_threshold` is met. -/
def CircuitBreaker.call_succeeded (cb : CircuitBreaker) : CircuitBreaker :=
  let cb := { cb with failure_count := 0 }
  if cb.state = .half_open then
    let cb := { cb with success_count := cb.success_count + 1 }
    if cb.success_count ≥ cb.success_threshold then
      { cb with state := .closed, success_count := 0 }
    else cb
  else cb

/-- `CircuitBreaker.call_failed`: count the failure, stamp the time,
reset `success_count`; open once `failure_count` reaches the threshold. -/
def CircuitBreaker.call_failed (cb : CircuitBreaker) (now : Nat) : CircuitBreaker :=
  let cb := { cb with
    failure_count := cb.failure_count + 1,
    last_failure_time := some now,
    success_count := 0 }
  if cb.failure_count ≥ cb.failure_threshold then
    { cb with state := .open }
  else cb

/-- `CircuitBreaker.can_attempt`: closed → yes; open → yes only once the
timeout has elapsed since the last failure (moving to half-open as a side
effect); half-open → yes.  Returns the decision and the updated breaker. -/
def CircuitBreaker.can_attempt (cb : CircuitBreaker) (now : Nat) : Bool × CircuitBreaker :=
  match cb.state with
  | .closed => (true, cb)
  | .open =>
    match cb.last_failure_time with
    | some t =>
      if now - t ≥ cb.timeout then (true, { cb with state := .half_open })
      else (false, cb)
    | none => (false, cb)
  | .half_open => (true, cb)

/-- `CircuitBreaker.get_state`. -/
def CircuitBreaker.get_state (cb : CircuitBreaker) : String :=
  match cb.state with
  | .closed => "closed"
  | .open => "open"
  | .half_open => "half_open"

/-! ## Pooled connection call with retry (`mcp_pool.py`, `MCPConnection.call_tool`)

The decorated coroutine performs one HTTP POST per attempt.  What the
network does on attempt `i` is an explicit input `outcome i`; the body of
one attempt (lines 149–164) maps that outcome to a result or an
exception.  The tenacity decorator `@retry(stop=stop_after_attempt(3),
retry=retry_if_exception_type((httpx.HTTPError, asyncio.TimeoutError)))`
is modelled by its documented semantics: an exception not matched by the
retry predicate is re-raised unchanged at once; a matched exception
triggers another attempt until 3 attempts have been made, after which —
`reraise` being left at its default `False` — a `RetryError` wrapping the
last attempt's exception is raised. -/

/-- What one POST of the payload to the server yields. -/
inductive PostOutcome where
  | netError : PostOutcome
  | timeout : PostOutcome
  | response (body : Json) : PostOutcome
deriving Repr

/-- Exceptions a pooled-connection call can raise. -/
inductive CallExc where
  | httpError : CallExc
  | timeoutError : CallExc
  | toolError (e : Json) : CallExc
  | retryError (last : CallExc) : CallExc
deriving Repr

/-- tenacity's `retry_if_exception_type((httpx.HTTPError, asyncio.TimeoutError))`. -/
def CallExc.retriable : CallExc → Bool
  | .httpError => true
  | .timeoutError => true
  | _ => false

/-- One attempt of `MCPConnection.call_tool` (lines 149–164): POST, raise
on transport errors, raise `MCP tool error` when the body has an `error`
field, otherwise return `result.get("result", {})`. -/
def callToolOnce : PostOutcome → Except CallExc Json
  | .netError => .error .httpError
  | .timeout => .error .timeoutError
  | .response body =>
    match body.getKey "error" with
    | some e => .error (.toolError e)
    | none => .ok ((body.getKey "result").getD (.obj []))

/-- The tenacity retry loop: `attempt` is the 0-based index of the current
attempt, the second argument the number of attempts still allowed.
Returns the final result together with the number of attempts made. -/
def retryCallAux (outcome : Nat → PostOutcome) (attempt : Nat) :
    Nat → Except CallExc Json × Nat
  | 0 => (.error .httpError, 0)
  | 1 =>
    match callToolOnce (outcome attempt) with
    | .ok v => (.ok v, 1)
    | .error e =>
      if e.retriable then (.error (.retryError e), 1) else (.error e, 1)
  | n + 2 =>
    match callToolOnce (outcome attempt) with
    | .ok v => (.ok v, 1)
    | .error e =>
      if e.retriable then
        let (r, k) := retryCallAux outcome (attempt + 1) (n + 1)
        (r, k + 1)
      else (.error e, 1)

/-- `MCPConnection.call_tool` as seen by the caller: the retry-wrapped
attempt loop with `stop_after_attempt(3)`. -/
def MCPConnection.call_tool (outcome : Nat → PostOutcome) : Except CallExc Json × Nat :=
  retryCallAux outcome 0 3

/-! ## Connection pool (`mcp_pool.py`, class `MCPConnectionPool`)

The pool's mutable attributes become an explicit state record.  The
`available_connections` FIFO queue is a list of connection identifiers
(head = front); `get_connection` takes the head, `return_connection`
appends at the back.  `Queue.get` on an empty queue blocks forever, which
a terminating model cannot express: `call_tool` is therefore stated on
states with a non-empty queue (the pool pre-fills it with
`max_connections` entries in `initialize`).  The borrowed connection's
retry-wrapped call is passed in as its outcome `connResult`. -/

/-- The `self.metrics` dict. -/
structure PoolMetrics where
  total_calls : Nat := 0
  successful_calls : Nat := 0
  failed_calls : Nat := 0
  circuit_breaker_rejections : Nat := 0
deriving DecidableEq, Repr

/-- Pool state: metrics, breaker, and the available-connections queue. -/
structure PoolState where
  metrics : PoolMetrics := {}
  breaker : CircuitBreaker := {}
  available : List Nat := []
deriving DecidableEq, Repr

/-- Errors `MCPConnectionPool.call_tool` can raise. -/
inductive PoolExc where
  | circuitOpen (state : String) : PoolExc
  | callError (e : CallExc) : PoolExc
deriving Repr

/-- `MCPConnectionPool.call_tool` (lines 271–316): consult the breaker
(only when `use_circuit_breaker`; rejection bumps just the rejection
counter), count the call, borrow the head connection, delegate, record
success/failure on metrics and breaker, re-raise failures, and return the
connection to the back of the queue in the `finally` block. -/
def MCPConnectionPool.call_tool (st : PoolState) (useCB : Bool) (now : Nat)
    (connResult : Except CallExc Json) : Except PoolExc Json × PoolState :=
  if useCB && !(st.breaker.can_attempt now).1 then
    let cb := (st.breaker.can_attempt now).2
    (.error (.circuitOpen cb.get_state),
     { st with
       breaker := cb,
       metrics := { st.metrics with
         circuit_breaker_rejections := st.metrics.circuit_breaker_rejections + 1 } })
  else
    let cb0 := if useCB then (st.breaker.can_attempt now).2 else st.breaker
    let m0 := { st.metrics with total_calls := st.metrics.total_calls + 1 }
    match st.available with
    | [] => (.error (.callError .httpError), st)
    | c :: rest =>
      match connResult with
      | .ok v =>
        (.ok v,
         { metrics := { m0 with successful_calls := m0.successful_calls + 1 },
           breaker := if useCB then cb0.call_succeeded else cb0,
           available := rest ++ [c] })
      | .error e =>
        (.error (.callError e),
         { metrics := { m0 with failed_calls := m0.failed_calls + 1 },
           breaker := if useCB then cb0.call_failed now else cb0,
           available := rest ++ [c] })

/-! ## Streaming session client (`fastmcp_client.py`, class `FastMCPClient`) -/

/-- `FastMCPClient._next_id`: increment `self.message_id` and return it.
Input and output are the `message_id` attribute before and after. -/
def FastMCPClient.next_id (message_id : Nat) : Nat × Nat :=
  (message_id + 1, message_id + 1)

/-- The ids handed out by `n` successive `_next_id` calls starting from
attribute value `s`. -/
def idsFrom (s : Nat) : Nat → List Nat
  | 0 => []
  | n + 1 =>
    let p := FastMCPClient.next_id s
    p.1 :: idsFrom p.2 n

/-- The ids assigned over a session's lifetime: `__init__` sets
`self.message_id = 0`, then each `call_tool` draws one id. -/
def assignedIds (n : Nat) : List Nat :=
  idsFrom 0 n

/-- Python truthiness of `msg_id` (`message.get("id")`): `None` and `0`
are falsy.  This is the test `_send_message` uses to decide whether to
register and await a response future. -/
def truthyId : Option Nat → Bool
  | none => false
  | some n => n ≠ 0

/-- Errors `FastMCPClient._send_message` can raise. -/
inductive SendExc where
  | transportError : SendExc
  | timeoutExpired (id : Nat) : SendExc
deriving DecidableEq, Repr

/-- The `{"status": "accepted"}` marker returned when no response is
awaited. -/
def acceptedJson : Json :=
  .obj [("status", .str "accepted")]

/-- `FastMCPClient._send_message` (lines 134–177) over the
`pending_responses` key set.  `postOk` is whether the POST returned
status 200/202 (false covers both a network failure and a bad status);
`sse` is the correlated payload the listener resolves the future with
before the 30 s deadline, or `none` when no such response arrives.
Registration uses `List.insert` since dict-key assignment overwrites.
Returns the call's result and the new `pending_responses` key set. -/
def FastMCPClient.send_message (pending : List Nat) (msgId : Option Nat)
    (waitResponse : Bool) (postOk : Bool) (sse : Option Json) :
    Except SendExc Json × List Nat :=
  let registered := waitResponse && truthyId msgId
  let n := msgId.getD 0
  let pending1 := if registered then pending.insert n else pending
  if !postOk then
    (.error .transportError,
     if truthyId msgId then pending1.erase n else pending1)
  else if registered then
    match sse with
    | some payload => (.ok payload, pending1.erase n)
    | none => (.error (.timeoutExpired n), pending1.erase n)
  else
    (.ok acceptedJson, pending1)

/-- The handshake step of `FastMCPClient.connect` (lines 85–100): send the
`initialize` message with id 0 and `wait_response` left at its default
`True`, on a fresh session (`pending_responses` empty) whose POST
succeeds; `sse` is the server's eventual handshake response, if any. -/
def FastMCPClient.connect_handshake (sse : Option Json) : Except SendExc Json × List Nat :=
  FastMCPClient.send_message [] (some 0) true true sse

/-- What `_listen_sse_events` does with one parsed-or-not `data:` payload. -/
inductive SseAction where
  | resolve (id : Nat) (payload : Json) : SseAction
  | dropped : SseAction
  | malformed : SseAction
deriving Repr

/-- One iteration of `FastMCPClient._listen_sse_events` (lines 117–130)
on the payload of a `data:` line, against the current
`pending_responses` key set: parse as JSON (failures are logged and
ignored); resolve the matching future only when the payload has both an
`id` and a `result` member and the id is a pending integer key. -/
def FastMCPClient.handle_sse_event (pending : List Nat) (data : String) : SseAction :=
  match parseJson data with
  | none => .malformed
  | some ev =>
    match ev.getKey "id", ev.getKey "result" with
    | some idVal, some _ =>
      match idVal with
      | .num i =>
        match pending.find? (fun (k : Nat) => ((k : Int) == i)) with
        | some k => .resolve k ev
        | none => .dropped
      | _ => .dropped
    | _, _ => .dropped

/-- Whether a value is an object (dict). -/
def Json.members? : Json → Option (List (String × Json))
  | .obj ms => some ms
  | _ => none

/-- The `{text: <raw string>}` fallback of `call_tool`'s text unwrapping:
`json.loads(text)` when it parses, else `{"text": text}`. -/
def parseTextField (s : String) : Json :=
  match parseJson s with
  | some v => v
  | none => .obj [("text", .str s)]

/-- Results of `call_tool`'s result extraction.  `typeError` models the
uncaught `TypeError` `json.loads` raises when the `text` member is
present but not a string (only `json.JSONDecodeError` is caught). -/
inductive ExtractOut where
  | value (v : Json) : ExtractOut
  | typeError : ExtractOut
deriving Repr

/-- Result extraction of `FastMCPClient.call_tool` (lines 215–234) on the
response's `result` field. -/
def extract_result (result : Json) : ExtractOut :=
  match result with
  | .obj ms =>
    match lookupKey ms "content" with
    | none => .value (.obj ms)
    | some content =>
      match content with
      | .arr (first :: _) =>
        match first with
        | .obj fm =>
          match lookupKey fm "text" with
          | none => .value (parseTextField "\x7b\x7d")
          | some (.str s) => .value (parseTextField s)
          | some _ => .typeError
        | _ => .value first
      | .arr [] => .value (.arr [])
      | _ => .value content
  | r => .value r

/-- `FastMCPClient.call_tool`'s handling of a resolved response payload
(lines 209–234): raise `MCP tool error` when the payload has an `error`
member, otherwise extract from `response.get("result", {})`. -/
def FastMCPClient.process_response (response : Json) : Except Json ExtractOut :=
  match response.getKey "error" with
  | some e => .error e
  | none => .ok (extract_result ((response.getKey "result").getD (.obj [])))

/-! ## Concrete sample inputs used in witnesses and counterexamples -/

/-- The spec's example error response `\x7b"id": 2, "error": \x7b"message":
"not found"\x7d\x7d`. -/
def errorResponseBody : Json :=
  .obj [("id", .num 2), ("error", .obj [("message", .str "not found")])]

/-- A freshly initialized pool with one available connection. -/
def samplePoolFresh : PoolState :=
  { available := [0] }

/-- A pool whose breaker opened at time 0 after reaching the failure
threshold, observed well before the 60 s timeout. -/
def samplePoolOpen : PoolState :=
  { breaker := { state := .open, last_failure_time := some 0, failure_count := 5 },
    available := [0, 1] }

/-- A breaker in the half-open probing state after one successful probe. -/
def sampleHalfOpenBreaker : CircuitBreaker :=
  { state := .half_open, failure_count := 0, success_count := 1,
    last_failure_time := some 0 }

/-- The spec's end-to-end example response for
`invoke("track_shipment", ...)`. -/
def exampleResponse : Json :=
  .obj [("id", .num 1),
        ("result", .obj [("content",
          .arr [.obj [("text", .str "\x7b\"status\": \"in_transit\"\x7d")]])])]

/-- The `result` member of `exampleResponse`. -/
def exampleResult : Json :=
  .obj [("content", .arr [.obj [("text", .str "\x7b\"status\": \"in_transit\"\x7d")]])]

/-! ## Helper lemmas -/

/-- `can_attempt` that answers `false` leaves the breaker untouched
(the only mutation, open → half-open, happens on a `true` answer). -/
theorem can_attempt_false_id (cb : CircuitBreaker) (now : Nat)
    (h : (cb.can_attempt now).1 = false) : (cb.can_attempt now).2 = cb := by
  obtain ⟨ft, tmo, st, fc, sc, lft, s⟩ := cb
  cases s with
  | closed => simp [CircuitBreaker.can_attempt] at h
  | half_open => simp [CircuitBreaker.can_attempt] at h
  | «open» =>
    cases lft with
    | none => rfl
    | some t =>
      simp only [CircuitBreaker.can_attempt] at h ⊢
      by_cases hc : now - t ≥ tmo
      · simp [hc] at h
      · simp [hc]

/-- `can_attempt` never changes the failure counter. -/
theorem can_attempt_failure_count (cb : CircuitBreaker) (now : Nat) :
    (cb.can_attempt now).2.failure_count = cb.failure_count := by
  obtain ⟨ft, tmo, st, fc, sc, lft, s⟩ := cb
  cases s with
  | closed => rfl
  | half_open => rfl
  | «open» =>
    cases lft with
    | none => rfl
    | some t =>
      simp only [CircuitBreaker.can_attempt]
      by_cases hc : now - t ≥ tmo
      · simp [hc]
      · simp [hc]

/-- The ids handed out by `n` successive `_next_id` calls from counter
value `s` are `s+1, s+2, …, s+n`. -/
theorem idsFrom_eq (n : Nat) : ∀ s, idsFrom s n = (List.range n).map (fun i => s + i + 1) := by
  induction n with
  | zero => intro s; rfl
  | succ n ih =>
    intro s
    simp only [idsFrom, FastMCPClient.next_id, List.range_succ_eq_map, List.map_cons,
      List.map_map, ih (s + 1)]
    refine congrArg₂ List.cons (by omega) (List.map_congr_left fun i _ => ?_)
    simp only [Function.comp_apply]
    omega

/-! ## C8: message-id monotonicity -/

/-- C8: over a session's lifetime the assigned message ids are exactly
`1, 2, …, n`: a strictly increasing integer sequence starting at 1, with
no repetition, and 0 (the handshake id) never assigned. -/
theorem C8_message_ids_strictly_increasing (n : Nat) :
    assignedIds n = (List.range n).map (· + 1) ∧
    List.Pairwise (· < ·) (assignedIds n) ∧
    (assignedIds n).Nodup ∧
    0 ∉ assignedIds n ∧
    (assignedIds n).head? = (if n = 0 then none else some 1) := by
  have he : assignedIds n = (List.range n).map (· + 1) := by
    rw [assignedIds, idsFrom_eq n 0]
    exact List.map_congr_left fun i _ => by omega
  have hp : List.Pairwise (· < ·) (assignedIds n) := by
    rw [he]
    exact (List.pairwise_lt_range n).map _ (fun h => by omega)
  refine ⟨he, hp, hp.imp Nat.ne_of_lt, ?_, ?_⟩
  · rw [he]
    simp
  · rw [he]
    cases n with
    | zero => rfl
    | succ m => simp [List.range_succ_eq_map]

/-! ## C10: a first content element without a `text` member -/

/-- C10: when the response's `result.content` is a non-empty list whose
first element is a mapping without a `text` key, the missing text
defaults to the string `"\x7b\x7d"`, which JSON-parses to the empty
mapping — so the call returns `\x7b\x7d` rather than failing or
returning the element itself. -/
theorem C10_missing_text_defaults_to_empty_mapping
    (ms fm : List (String × Json)) (rest : List Json)
    (hc : lookupKey ms "content" = some (.arr (.obj fm :: rest)))
    (ht : lookupKey fm "text" = none) :
    extract_result (.obj ms) = .value (.obj []) := by
  simp [extract_result, hc, ht]
  rfl

/-- Concrete run of C10: a content item `\x7b"type": "image"\x7d` with no
`text` member yields the empty mapping. -/
theorem C10_witness :
    (lookupKey [("content", Json.arr [Json.obj [("type", Json.str "image")]])] "content" =
      some (Json.arr [Json.obj [("type", Json.str "image")]])) ∧
    (lookupKey [("type", Json.str "image")] "text" = none) ∧
    extract_result (Json.obj [("content", Json.arr [Json.obj [("type", Json.str "image")]])]) =
      .value (.obj []) :=
  ⟨rfl, rfl,
    C10_missing_text_defaults_to_empty_mapping _ [("type", Json.str "image")] [] rfl rfl⟩

/-! ## C2: the handshake never waits for its response -/

/-- C2 (code bug): `connect` sends the `initialize` message with id 0 and
`wait_response=True`, but `_send_message` tests `if wait_response and
msg_id:` and Python's `0` is falsy — so no future is registered and the
handshake returns `{"status": "accepted"}` immediately, whatever the
server later sends (in particular when no handshake response ever
arrives), instead of awaiting the correlated response up to the 30 s
deadline. -/
theorem C2_handshake_response_never_awaited (sse : Option Json) :
    FastMCPClient.connect_handshake sse = (.ok acceptedJson, []) := rfl

/-! ## C4: the listener drops server error responses -/

/-- C4 (code bug): `_listen_sse_events` only resolves a pending future
when the payload has both an `id` and a `result` member; a well-formed
error response such as `\x7b"id": 2, "error": \x7b"message": "not
found"\x7d\x7d` is silently dropped even though id 2 is pending, so the
waiting caller can only time out — while a `result` payload for a
pending id is resolved, and non-JSON payloads are ignored as malformed. -/
theorem C4_error_response_never_resolved :
    FastMCPClient.handle_sse_event [2]
      "\x7b\"id\": 2, \"error\": \x7b\"message\": \"not found\"\x7d\x7d" = .dropped ∧
    FastMCPClient.handle_sse_event [2]
      "\x7b\"id\": 2, \"result\": \x7b\"ok\": true\x7d\x7d" =
      .resolve 2 (Json.obj [("id", Json.num 2),
        ("result", Json.obj [("ok", Json.bool true)])]) ∧
    FastMCPClient.handle_sse_event [2] "not json" = .malformed ∧
    FastMCPClient.handle_sse_event [2] "\x7b\"id\": 9, \"result\": 1\x7d" = .dropped :=
  ⟨rfl, rfl, rfl, rfl⟩

/-! ## C3: a failure while half-open -/

/-- C3 (counterexample): drive the default breaker (threshold 5, timeout
60 s, success threshold 2) through 5 failures at time 0 (→ open), a
`can_attempt` probe at time 60 (→ half-open) and one successful probe.
The state is half-open — reached after a success in half-open — yet a
single `call_failed` leaves it half-open instead of returning it to open
(the success reset `failure_count` to 0, and `call_failed` only opens
once the count reaches the threshold again). -/
theorem C3_counterexample :
    (let cb0 : CircuitBreaker := {}
     let cb5 := ((((cb0.call_failed 0).call_failed 0).call_failed 0).call_failed 0).call_failed 0
     let cbh := ((cb5.can_attempt 60).2).call_succeeded
     cb5.state = CircuitState.open ∧
     cbh.state = CircuitState.half_open ∧
     (cbh.call_failed 60).success_count = 0 ∧
     (cbh.call_failed 60).state = CircuitState.half_open ∧
     (cbh.call_failed 60).state ≠ CircuitState.open) := by
  decide

/-- C3 (amended): in half-open, `call_failed` always resets
`success_count` to 0, but transitions back to open only when the
incremented `failure_count` reaches `failure_threshold` — so the first
failure after entering half-open (count still at the threshold) reopens
the breaker, while a failure after a success in half-open (count reset
to 0) leaves it half-open. -/
theorem C3_amended_half_open_failure (cb : CircuitBreaker) (now : Nat)
    (h : cb.state = CircuitState.half_open) :
    ((cb.call_failed now).success_count = 0) ∧
    (cb.failure_count + 1 ≥ cb.failure_threshold → (cb.call_failed now).state = CircuitState.open) ∧
    (cb.failure_count + 1 < cb.failure_threshold →
      (cb.call_failed now).state = CircuitState.half_open) := by
  refine ⟨?_, ?_, ?_⟩
  · simp only [CircuitBreaker.call_failed]
    split <;> rfl
  · intro hge
    simp [CircuitBreaker.call_failed, hge]
  · intro hlt
    have hng : ¬ (cb.failure_count + 1 ≥ cb.failure_threshold) := by omega
    simp [CircuitBreaker.call_failed, hng, h]

/-- Concrete run of the amended C3 on a half-open breaker that has had
one successful probe. -/
theorem C3_amended_witness :
    sampleHalfOpenBreaker.state = CircuitState.half_open ∧
    ((sampleHalfOpenBreaker.call_failed 7).success_count = 0) ∧
    (sampleHalfOpenBreaker.failure_count + 1 ≥ sampleHalfOpenBreaker.failure_threshold →
      (sampleHalfOpenBreaker.call_failed 7).state = CircuitState.open) ∧
    (sampleHalfOpenBreaker.failure_count + 1 < sampleHalfOpenBreaker.failure_threshold →
      (sampleHalfOpenBreaker.call_failed 7).state = CircuitState.half_open) :=
  ⟨rfl, (C3_amended_half_open_failure sampleHalfOpenBreaker 7 rfl).1,
    (C3_amended_half_open_failure sampleHalfOpenBreaker 7 rfl).2.1,
    (C3_amended_half_open_failure sampleHalfOpenBreaker 7 rfl).2.2⟩

/-! ## C9: circuit-breaker rejection touches nothing but the rejection counter -/

/-- C9: when the breaker denies the attempt, `call_tool` fails with the
circuit-open error at once; the available queue, the breaker (state and
counters) and all metrics except `circuit_breaker_rejections` are left
unchanged, and no connection is borrowed. -/
theorem C9_breaker_rejection_frame (st : PoolState) (now : Nat) (r : Except CallExc Json)
    (h : (st.breaker.can_attempt now).1 = false) :
    (MCPConnectionPool.call_tool st true now r).1 =
      .error (.circuitOpen st.breaker.get_state) ∧
    (MCPConnectionPool.call_tool st true now r).2.available = st.available ∧
    (MCPConnectionPool.call_tool st true now r).2.breaker = st.breaker ∧
    (MCPConnectionPool.call_tool st true now r).2.metrics =
      { st.metrics with
        circuit_breaker_rejections := st.metrics.circuit_breaker_rejections + 1 } := by
  have hid := can_attempt_false_id st.breaker now h
  simp [MCPConnectionPool.call_tool, h, hid]

/-- Concrete run of C9 on a pool whose breaker opened at time 0,
observed at time 10 (before the 60 s timeout). -/
theorem C9_witness :
    ((samplePoolOpen.breaker.can_attempt 10).1 = false) ∧
    (MCPConnectionPool.call_tool samplePoolOpen true 10 (.ok Json.null)).2.available =
      samplePoolOpen.available ∧
    (MCPConnectionPool.call_tool samplePoolOpen true 10 (.ok Json.null)).2.breaker =
      samplePoolOpen.breaker ∧
    (MCPConnectionPool.call_tool samplePoolOpen true 10 (.ok Json.null)).2.metrics =
      { samplePoolOpen.metrics with
        circuit_breaker_rejections := samplePoolOpen.metrics.circuit_breaker_rejections + 1 } :=
  ⟨by decide,
    (C9_breaker_rejection_frame samplePoolOpen 10 (.ok Json.null) (by decide)).2.1,
    (C9_breaker_rejection_frame samplePoolOpen 10 (.ok Json.null) (by decide)).2.2.1,
    (C9_breaker_rejection_frame samplePoolOpen 10 (.ok Json.null) (by decide)).2.2.2⟩

/-! ## C7: timeout failure and pending-entry cleanup -/

/-- C7: for a message whose future is registered and awaited (truthy id,
`wait_response=True`), expiry of the 30 s deadline fails the call with a
timeout error carrying the message id; and whatever the outcome —
response delivered, deadline expired, or POST failure — the entry for
that id is gone from `pending_responses` afterwards. -/
theorem C7_timeout_cleanup (pending : List Nat) (n : Nat)
    (hn : n ≠ 0) (hnd : pending.Nodup) :
    (FastMCPClient.send_message pending (some n) true true none).1 =
      .error (.timeoutExpired n) ∧
    ∀ (postOk : Bool) (sse : Option Json),
      n ∉ (FastMCPClient.send_message pending (some n) true postOk sse).2 := by
  have htr : truthyId (some n) = true := by simp [truthyId, hn]
  have hins : (pending.insert n).Nodup := hnd.insert
  constructor
  · simp [FastMCPClient.send_message, htr]
  · intro postOk sse
    cases postOk <;> cases sse <;>
      simp [FastMCPClient.send_message, htr] <;>
      exact hins.not_mem_erase

/-- Concrete run of C7: message id 7 with pending ids `[3, 5]`. -/
theorem C7_witness :
    (7 ≠ 0) ∧ ([3, 5] : List Nat).Nodup ∧
    (FastMCPClient.send_message [3, 5] (some 7) true true none).1 =
      .error (.timeoutExpired 7) ∧
    (7 ∉ (FastMCPClient.send_message [3, 5] (some 7) true true none).2) ∧
    (7 ∉ (FastMCPClient.send_message [3, 5] (some 7) true false none).2) ∧
    (7 ∉ (FastMCPClient.send_message [3, 5] (some 7) true true (some Json.null)).2) :=
  ⟨by decide, by decide,
    (C7_timeout_cleanup [3, 5] 7 (by decide) (by decide)).1,
    (C7_timeout_cleanup [3, 5] 7 (by decide) (by decide)).2 true none,
    (C7_timeout_cleanup [3, 5] 7 (by decide) (by decide)).2 false none,
    (C7_timeout_cleanup [3, 5] 7 (by decide) (by decide)).2 true (some Json.null)⟩

/-! ## C1: which failures count against the breaker -/

/-- C1 (counterexample): on a fresh pool, a borrowed connection whose
call raises precisely because the server returned a well-formed body
with an `error` member (the spec's `\x7b"id": 2, "error": \x7b"message":
"not found"\x7d\x7d`) still drives the breaker's failure count from 0 to
1: the pool's `except Exception` block calls `call_failed` for every
exception, with no carve-out for application-level tool errors. -/
theorem C1_counterexample :
    (MCPConnection.call_tool (fun _ => .response errorResponseBody)).1 =
      .error (.toolError (Json.obj [("message", Json.str "not found")])) ∧
    samplePoolFresh.breaker.failure_count = 0 ∧
    (MCPConnectionPool.call_tool samplePoolFresh true 0
      (MCPConnection.call_tool (fun _ => .response errorResponseBody)).1).2.breaker.failure_count = 1 :=
  ⟨rfl, rfl, rfl⟩

/-- C1 (amended): with the breaker enabled and permitting the attempt,
every exception raised by the borrowed connection's call — transport,
timeout, and application-level tool errors alike — increments the
breaker's failure count by exactly one before the exception is
re-raised to the caller. -/
theorem C1_amended_every_failure_counts (st : PoolState) (now : Nat) (e : CallExc)
    (c : Nat) (rest : List Nat)
    (hav : st.available = c :: rest)
    (hcan : (st.breaker.can_attempt now).1 = true) :
    (MCPConnectionPool.call_tool st true now (.error e)).1 = .error (.callError e) ∧
    (MCPConnectionPool.call_tool st true now (.error e)).2.breaker.failure_count =
      st.breaker.failure_count + 1 := by
  have hfc := can_attempt_failure_count st.breaker now
  simp only [MCPConnectionPool.call_tool, hcan, hav]
  constructor
  · simp
  · simp [CircuitBreaker.call_failed]
    split <;> simp [hfc]

/-- Concrete run of the amended C1: a transport error on a fresh pool
bumps the failure count from 0 to 1. -/
theorem C1_amended_witness :
    (samplePoolFresh.available = 0 :: []) ∧
    ((samplePoolFresh.breaker.can_attempt 0).1 = true) ∧
    (MCPConnectionPool.call_tool samplePoolFresh true 0 (.error .httpError)).1 =
      .error (.callError .httpError) ∧
    (MCPConnectionPool.call_tool samplePoolFresh true 0 (.error .httpError)).2.breaker.failure_count =
      samplePoolFresh.breaker.failure_count + 1 :=
  ⟨rfl, rfl,
    (C1_amended_every_failure_counts samplePoolFresh 0 .httpError 0 [] rfl rfl).1,
    (C1_amended_every_failure_counts samplePoolFresh 0 .httpError 0 [] rfl rfl).2⟩

/-! ## C5: the per-connection retry policy -/

/-- The retry loop never makes more attempts than it is allowed. -/
theorem retryCallAux_count_le (f : Nat → PostOutcome) :
    ∀ (n a : Nat), (retryCallAux f a n).2 ≤ n
  | 0, a => by simp [retryCallAux]
  | 1, a => by
    cases h : callToolOnce (f a) with
    | ok v => simp [retryCallAux, h]
    | error e => by_cases hr : e.retriable <;> simp [retryCallAux, h, hr]
  | n + 2, a => by
    cases h : callToolOnce (f a) with
    | ok v => simp [retryCallAux, h]
    | error e =>
      by_cases hr : e.retriable <;> simp [retryCallAux, h, hr]
      have := retryCallAux_count_le f (n + 1) (a + 1)
      rcases hrk : retryCallAux f (a + 1) (n + 1) with ⟨r, k⟩
      rw [hrk] at this
      simp at this ⊢
      omega

/-- C5 (counterexample): when every attempt fails at the transport level,
the caller receives tenacity's `RetryError` wrapping the last attempt's
exception — not the original exception unchanged, as the claim's final
clause states (`reraise` is left at its default `False`). -/
theorem C5_counterexample :
    MCPConnection.call_tool (fun _ => PostOutcome.netError) =
      (.error (.retryError .httpError), 3) ∧
    (MCPConnection.call_tool (fun _ => PostOutcome.netError)).1 ≠
      .error CallExc.httpError := by
  refine ⟨rfl, ?_⟩
  intro h
  injection h with h2
  exact CallExc.noConfusion h2

/-- C5 (amended): at most 3 attempts are ever made; an exception outside
the retried types — the `MCP tool error` raised for a body with an
`error` member — is propagated unchanged after a single attempt; and
when all 3 attempts fail with retriable transport errors, the call fails
with a `RetryError` wrapping the last attempt's exception. -/
theorem C5_amended_retry_policy (f : Nat → PostOutcome) :
    (MCPConnection.call_tool f).2 ≤ 3 ∧
    (∀ e, callToolOnce (f 0) = .error e → e.retriable = false →
      MCPConnection.call_tool f = (.error e, 1)) ∧
    (∀ e0 e1 e2,
      callToolOnce (f 0) = .error e0 → e0.retriable = true →
      callToolOnce (f 1) = .error e1 → e1.retriable = true →
      callToolOnce (f 2) = .error e2 → e2.retriable = true →
      MCPConnection.call_tool f = (.error (.retryError e2), 3)) := by
  refine ⟨retryCallAux_count_le f 3 0, ?_, ?_⟩
  · intro e he hr
    show retryCallAux f 0 3 = _
    rw [show (3 : Nat) = 1 + 2 from rfl]
    simp [retryCallAux, he, hr]
  · intro e0 e1 e2 h0 r0 h1 r1 h2 r2
    show retryCallAux f 0 3 = _
    rw [show (3 : Nat) = 1 + 2 from rfl]
    simp only [retryCallAux, h0, r0, if_true]
    rw [show (1 + 1 : Nat) = 0 + 2 from rfl]
    simp only [retryCallAux, h1, r1, if_true]
    simp only [retryCallAux, h2, r2, if_true]

/-- Concrete runs of the amended C5: a tool error is raised after one
attempt; three timeouts exhaust the attempts and surface a `RetryError`. -/
theorem C5_amended_witness :
    (callToolOnce (.response errorResponseBody) =
      .error (.toolError (Json.obj [("message", Json.str "not found")]))) ∧
    MCPConnection.call_tool (fun _ => .response errorResponseBody) =
      (.error (.toolError (Json.obj [("message", Json.str "not found")])), 1) ∧
    MCPConnection.call_tool (fun _ => PostOutcome.timeout) =
      (.error (.retryError .timeoutError), 3) :=
  ⟨rfl,
    (C5_amended_retry_policy (fun _ => .response errorResponseBody)).2.1
      (.toolError (Json.obj [("message", Json.str "not found")])) rfl rfl,
    (C5_amended_retry_policy (fun _ => PostOutcome.timeout)).2.2
      .timeoutError .timeoutError .timeoutError rfl rfl rfl rfl rfl rfl⟩

/-! ## C6: result extraction on the streaming client -/

/-- C6: for a successful call (no `error` member in the response),
extraction over `response.get("result", \x7b\x7d)` satisfies: a non-dict
`result`, or a dict without a `content` key, is returned as-is; a
non-empty `content` list whose first element is a dict with a string
`text` member yields the JSON-parse of that text when it parses and
`\x7b"text": <raw>\x7d` otherwise; a first `content` element that is not
a dict is returned verbatim.  In particular the spec's end-to-end example
response yields `\x7b"status": "in_transit"\x7d`. -/
theorem C6_result_extraction (response result : Json)
    (hok : response.getKey "error" = none)
    (hres : (response.getKey "result").getD (.obj []) = result) :
    (FastMCPClient.process_response response = .ok (extract_result result)) ∧
    (result.isObj = false → extract_result result = .value result) ∧
    (∀ ms, result = .obj ms → lookupKey ms "content" = none →
      extract_result result = .value result) ∧
    (∀ ms fm rest s, result = .obj ms →
      lookupKey ms "content" = some (.arr (.obj fm :: rest)) →
      lookupKey fm "text" = some (.str s) →
      ((∀ v, parseJson s = some v → extract_result result = .value v) ∧
       (parseJson s = none →
        extract_result result = .value (.obj [("text", .str s)])))) ∧
    (∀ ms first rest, result = .obj ms →
      lookupKey ms "content" = some (.arr (first :: rest)) → first.isObj = false →
      extract_result result = .value first) ∧
    FastMCPClient.process_response exampleResponse =
      .ok (.value (Json.obj [("status", Json.str "in_transit")])) := by
  refine ⟨?_, ?_, ?_, ?_, ?_, rfl⟩
  · simp [FastMCPClient.process_response, hok, hres]
  · intro hno
    cases result with
    | obj ms => simp [Json.isObj] at hno
    | null => rfl
    | bool b => rfl
    | num n => rfl
    | str s => rfl
    | arr l => rfl
  · rintro ms rfl hc
    simp [extract_result, hc]
  · rintro ms fm rest s rfl hc ht
    constructor
    · intro v hv
      simp [extract_result, hc, ht, parseTextField, hv]
    · intro hv
      simp [extract_result, hc, ht, parseTextField, hv]
  · rintro ms first rest rfl hc hno
    cases first with
    | obj fm => simp [Json.isObj] at hno
    | null => simp [extract_result, hc]
    | bool b => simp [extract_result, hc]
    | num n => simp [extract_result, hc]
    | str s => simp [extract_result, hc]
    | arr l => simp [extract_result, hc]

/-- Concrete run of C6: the spec's `track_shipment` example. -/
theorem C6_witness :
    (exampleResponse.getKey "error" = none) ∧
    ((exampleResponse.getKey "result").getD (.obj []) = exampleResult) ∧
    FastMCPClient.process_response exampleResponse =
      .ok (.value (Json.obj [("status", Json.str "in_transit")])) :=
  ⟨rfl, rfl, (C6_result_extraction exampleResponse exampleResult rfl rfl).2.2.2.2.2⟩
